import Mathlib

/-!
Shallow embedding of `src/WebServerESP32.ino` (ESP32 gate controller).

The sketch is single-threaded; each HTTP handler is embedded as a pure
function from the inputs it reads (the preferences store, the request, the
pseudo-random stream) to the outputs it produces (the HTTP response, the
updated store, the trace of pin events, the serial log).  External
collaborators (WiFi, WebServer, HTTPClient, Preferences) are modelled at
their call boundary, exactly as the sketch uses them.
-/

namespace Gate

/-! ### Arduino `String` primitives used by the sketch -/

/-- `isspace` characters, as used by Arduino `String::trim`. -/
def isSpaceChar (c : Char) : Bool :=
  c == ' ' || c == '\t' || c == '\n' || c == '\x0b' || c == '\x0c' || c == '\r'

/-- Arduino `String::trim`: strip leading and trailing whitespace. -/
def strTrim (s : String) : String :=
  String.mk (((s.data.dropWhile isSpaceChar).reverse.dropWhile isSpaceChar).reverse)

/-- Arduino `String::replace("\"", "")` as used at both call sites in
`handleConfigPost`: every double-quote character is removed. -/
def strRemoveQuotes (s : String) : String :=
  String.mk (s.data.filter (fun c => c ≠ '\"'))

/-- Arduino `String::substring(left, right)`: swaps the bounds when
`left > right`, clamps to the length, returns characters `[left, right)`. -/
def strSubstring (s : String) (left right : Nat) : String :=
  String.mk (((s.data.take (min (max left right) s.data.length)).drop (min left right)))

/-- Scan helper for `indexOf`: first position `i` (counting from the offset
already consumed) at which `sub` is a prefix of the remaining text. -/
def idxAux (sub : List Char) : List Char → Nat → Option Nat
  | [], i => if sub = [] then some i else none
  | c :: rest, i => if sub.isPrefixOf (c :: rest) then some i else idxAux sub rest (i + 1)

/-- Arduino `String::indexOf(sub, fromIndex)`: index of the first occurrence
of `sub` at or after `fromIndex`, or `-1` when there is none. -/
def strIndexOfFrom (s sub : String) (fromIndex : Nat) : Int :=
  match idxAux sub.data (s.data.drop fromIndex) fromIndex with
  | some i => Int.ofNat i
  | none => -1

/-! ### The durable store (`Preferences`, namespace "config")

`Preferences` is a durable string-keyed store; the sketch only calls
`getString(key, default)` and `putString(key, value)`.  It is modelled as an
association list where a put prepends and a get takes the most recent
binding, falling back to the default. -/

def Prefs : Type := List (String × String)

/-- `preferences.putString(key, value)`. -/
def Prefs.putString (p : Prefs) (key value : String) : Prefs :=
  (key, value) :: p

/-- `preferences.getString(key, default)`. -/
def Prefs.getString (p : Prefs) (key dflt : String) : String :=
  match List.lookup key p with
  | some v => v
  | none => dflt

/-- The empty (factory-fresh) store. -/
def Prefs.empty : Prefs := []

instance : DecidableEq Prefs :=
  inferInstanceAs (DecidableEq (List (String × String)))

/-! ### Pin events and the actuation sequence -/

/-- `pinMode` mode argument. -/
inductive PinIO where
  | output
  | input
deriving DecidableEq, Repr

/-- Observable side effects on the relay control lines. -/
inductive Event where
  | pinMode (pin : Nat) (m : PinIO)
  | delayMs (ms : Nat)
deriving DecidableEq, Repr

/-- `const int relayPin = 23;` -/
def relayPin : Nat := 23

/-- `const int relayPinMinus = 22;` -/
def relayPinMinus : Nat := 22

/-- `openOrCloseGate()`: drive both relay lines as outputs, wait 3000 ms,
then release both back to input (high-impedance) state. -/
def openOrCloseGate : List Event :=
  [Event.pinMode relayPin PinIO.output,
   Event.pinMode relayPinMinus PinIO.output,
   Event.delayMs 3000,
   Event.pinMode relayPin PinIO.input,
   Event.pinMode relayPinMinus PinIO.input]

/-! ### API key generation -/

/-- One character of the key: `random(0, 16)` returns `r` in `[0, 16)`;
`r < 10` yields the decimal digit, otherwise `char('A' + (r - 10))`. -/
def hexChar (r : Nat) : Char :=
  if r < 10 then Char.ofNat ('0'.toNat + r) else Char.ofNat ('A'.toNat + (r - 10))

/-- `generateAPIKey()`: sixteen iterations of `key += hexChar(random(0,16))`.
The pseudo-random source is modelled as a stream `rng`; `random(0, 16)`
constrains each draw to `[0, 16)`, hence the `% 16`. -/
def generateAPIKey (rng : Nat → Nat) : String :=
  (List.range 16).foldl (fun key i => key.push (hexChar (rng i % 16))) ""

/-! ### HTTP requests and responses -/

/-- An HTTP response as the sketch emits it: `sendHeader` calls collected in
`headers`, then a single `send(code, contentType, body)`. -/
structure WebReply where
  code : Nat
  contentType : String
  body : String
  headers : List (String × String)
deriving DecidableEq, Repr

/-- An inbound request on the normal-mode server (`server`): the sketch only
reads headers, via `hasHeader` and `header`. -/
structure Request where
  headers : List (String × String)

/-- `server.hasHeader(name)`. -/
def Request.hasHeader (r : Request) (name : String) : Bool :=
  (List.lookup name r.headers).isSome

/-- `server.header(name)`: the first matching header value, `""` if absent. -/
def Request.header (r : Request) (name : String) : String :=
  (List.lookup name r.headers).getD ""

/-- An inbound request on the setup-portal server (`setupServer`): parsed
POST arguments, plus the raw body (exposed by the server as the implicit
`"plain"` argument and read here via `plain`). -/
structure SetupRequest where
  args : List (String × String)
  plain : String

/-- `setupServer.hasArg(name)`. -/
def SetupRequest.hasArg (r : SetupRequest) (name : String) : Bool :=
  (List.lookup name r.args).isSome

/-- `setupServer.arg(name)`: the argument value, `""` if absent. -/
def SetupRequest.arg (r : SetupRequest) (name : String) : String :=
  (List.lookup name r.args).getD ""

/-! ### Normal-mode handlers -/

/-- `checkAuth()`: the stored key is the global `savedAPIKey`, passed here
explicitly. -/
def checkAuth (savedAPIKey : String) (req : Request) : Bool :=
  if !(req.hasHeader "Authorization") then false
  else
    let auth := req.header "Authorization"
    let expected := "Bearer " ++ savedAPIKey
    if auth == expected then true else false

/-- `handleUnauthorized()`. -/
def handleUnauthorized : WebReply :=
  { code := 401, contentType := "application/json",
    body := "\x7b\"error\":\"Unauthorized\"\x7d",
    headers := [("WWW-Authenticate", "Bearer")] }

/-- `handleOpen()`: the reply plus the trace of relay-pin events performed. -/
def handleOpen (savedAPIKey : String) (req : Request) : WebReply × List Event :=
  if !(checkAuth savedAPIKey req) then (handleUnauthorized, [])
  else
    ({ code := 200, contentType := "application/json",
       body := "\x7b\"status\": \"gate opened\"\x7d", headers := [] },
     openOrCloseGate)

/-- `handleClose()`. -/
def handleClose (savedAPIKey : String) (req : Request) : WebReply × List Event :=
  if !(checkAuth savedAPIKey req) then (handleUnauthorized, [])
  else
    ({ code := 200, contentType := "application/json",
       body := "\x7b\"status\": \"gate closed\"\x7d", headers := [] },
     openOrCloseGate)

/-- `handleNotFound()`. -/
def handleNotFound (savedAPIKey : String) (req : Request) : WebReply × List Event :=
  if !(checkAuth savedAPIKey req) then (handleUnauthorized, [])
  else
    ({ code := 404, contentType := "application/json",
       body := "\x7b\"error\": \"Not found\"\x7d", headers := [] },
     [])

/-! ### Setup-portal handlers -/

/-- Outcome of one setup-portal request: the reply, the store afterwards, and
whether the handler reaches `ESP.restart()`. -/
structure PortalStep where
  reply : WebReply
  prefs : Prefs
  restart : Bool

/-- `handleSetupSave()`: requires both form arguments, then writes the triple
and restarts; otherwise 400 and no write. -/
def handleSetupSave (prefs : Prefs) (rng : Nat → Nat) (req : SetupRequest) : PortalStep :=
  if req.hasArg "ssid" && req.hasArg "password" then
    let newSSID := req.arg "ssid"
    let newPassword := req.arg "password"
    let newAPIKey := generateAPIKey rng
    let prefs1 := Prefs.putString
      (Prefs.putString (Prefs.putString prefs "ssid" newSSID) "password" newPassword)
      "apikey" newAPIKey
    let reply1 : WebReply :=
      { code := 200, contentType := "text/html",
        body := "<html><body><h1>Configuration Saved!</h1>"
          ++ "<p>Your API Key is: " ++ newAPIKey ++ "</p>"
          ++ "<p>The device will restart now.</p>" ++ "</body></html>",
        headers := [] }
    { reply := reply1, prefs := prefs1, restart := true }
  else
    let reply1 : WebReply :=
      { code := 400, contentType := "text/html",
        body := "Missing SSID or password", headers := [] }
    { reply := reply1, prefs := prefs, restart := false }

/-- The credential-extraction phase of `handleConfigPost()`: URL-encoded
arguments when both are present, otherwise the minimal scan of the raw JSON
body.  Returns the pair `(newSSID, newPassword)`; either component is `""`
when its extraction fails. -/
def configCredentials (req : SetupRequest) : String × String :=
  if req.hasArg "ssid" && req.hasArg "password" then
    (req.arg "ssid", req.arg "password")
  else
    let body := req.plain
    let ssidIndex := strIndexOfFrom body "\"ssid\"" 0
    let passIndex := strIndexOfFrom body "\"password\"" 0
    if ssidIndex != -1 && passIndex != -1 then
      let colonIndexS := strIndexOfFrom body ":" ssidIndex.toNat
      let commaIndex := strIndexOfFrom body "," ssidIndex.toNat
      let newSSID :=
        if colonIndexS != -1 then
          strRemoveQuotes (strTrim (strSubstring body (colonIndexS.toNat + 1)
            (if commaIndex == -1 then body.length else commaIndex.toNat)))
        else ""
      let colonIndexP := strIndexOfFrom body ":" passIndex.toNat
      let endIndex := strIndexOfFrom body "\x7d" passIndex.toNat
      let newPassword :=
        if colonIndexP != -1 && endIndex != -1 then
          strRemoveQuotes (strTrim (strSubstring body (colonIndexP.toNat + 1) endIndex.toNat))
        else ""
      (newSSID, newPassword)
    else ("", "")

/-- `handleConfigPost()`: 403 when `"ssid"` is already stored; then the
extraction above; 400 when either extracted field is empty; otherwise write
the triple, answer with the key, and restart. -/
def handleConfigPost (prefs : Prefs) (rng : Nat → Nat) (req : SetupRequest) : PortalStep :=
  if Prefs.getString prefs "ssid" "" != "" then
    let reply1 : WebReply :=
      { code := 403, contentType := "application/json",
        body := "\x7b\"error\":\"Configuration already set.\"\x7d", headers := [] }
    { reply := reply1, prefs := prefs, restart := false }
  else
    let newSSID := (configCredentials req).1
    let newPassword := (configCredentials req).2
    if newSSID == "" || newPassword == "" then
      let reply1 : WebReply :=
        { code := 400, contentType := "application/json",
          body := "\x7b\"error\":\"Missing SSID or password\"\x7d", headers := [] }
      { reply := reply1, prefs := prefs, restart := false }
    else
      let newAPIKey := generateAPIKey rng
      let prefs1 := Prefs.putString
        (Prefs.putString (Prefs.putString prefs "ssid" newSSID) "password" newPassword)
        "apikey" newAPIKey
      let reply1 : WebReply :=
        { code := 200, contentType := "application/json",
          body := "\x7b\"apikey\":\"" ++ newAPIKey ++ "\"\x7d", headers := [] }
      { reply := reply1, prefs := prefs1, restart := true }

/-! ### Remote notifier -/

/-- `endpointUrl`. -/
def endpointUrl : String := "https://develop.messengerapi.chytravrata.eu/receive"

/-- `getRequestData()`. -/
def getRequestData : String :=
  "\x7b\"apiKey\": \"7d4eb3da-ba58-47a8-801c-5f74285d69b4\" \x7d"

/-- Outcome of one `sendPostMessage()` poll: the serial log lines and the
trace of relay-pin events. -/
structure PollStep where
  log : List String
  events : List Event

/-- `sendPostMessage()`: the outbound HTTP client is modelled as a function
`remote` from the POSTed body to the `(status, responseBody)` it yields
(`HTTPClient::POST` returns an `int`, negative on transport errors). -/
def sendPostMessage (remote : String → Int × String) : PollStep :=
  let httpResponseCode := (remote getRequestData).1
  if httpResponseCode == 200 then
    { log := ["Response Code: " ++ toString httpResponseCode,
              "Response: " ++ (remote getRequestData).2],
      events := openOrCloseGate }
  else
    { log := ["Error on sending POST: " ++ toString httpResponseCode],
      events := [] }

/-! ### Boot (`setup()` / `runSetupPortal()`) -/

/-- Which of the two mutually exclusive modes the boot cycle runs in. -/
inductive BootMode where
  | provisioning
  | operational
deriving DecidableEq, Repr

/-- What `setup()` does with a given store: the three values it reads, the
mode it selects, whether the provisioning access point and the setup routes
are started (`runSetupPortal()`, which never returns), which network it
attempts to join, and whether the normal-mode routes are registered. -/
structure BootResult where
  savedSSID : String
  savedPassword : String
  savedAPIKey : String
  mode : BootMode
  apStarted : Bool
  joinTarget : Option (String × String)
  setupRoutesRegistered : Bool
  normalRoutesRegistered : Bool

/-- `setup()`: reads the stored triple; if the SSID or the API key is empty
it calls `runSetupPortal()` (access point up, setup routes, endless loop),
otherwise it joins the stored network in station mode and registers the
normal-mode routes. -/
def setup (p : Prefs) : BootResult :=
  let savedSSID := Prefs.getString p "ssid" ""
  let savedPassword := Prefs.getString p "password" ""
  let savedAPIKey := Prefs.getString p "apikey" ""
  if savedSSID == "" || savedAPIKey == "" then
    { savedSSID := savedSSID, savedPassword := savedPassword, savedAPIKey := savedAPIKey,
      mode := BootMode.provisioning, apStarted := true, joinTarget := none,
      setupRoutesRegistered := true, normalRoutesRegistered := false }
  else
    { savedSSID := savedSSID, savedPassword := savedPassword, savedAPIKey := savedAPIKey,
      mode := BootMode.operational, apStarted := false,
      joinTarget := some (savedSSID, savedPassword),
      setupRoutesRegistered := false, normalRoutesRegistered := true }

/-! ### Derived notions used by the statements -/

/-- The hexadecimal alphabet of the spec: decimal digits or uppercase A-F. -/
def isHexUpper (c : Char) : Bool :=
  (('0' ≤ c) && (c ≤ '9')) || (('A' ≤ c) && (c ≤ 'F'))

/-- The store-shape invariant of the spec: the API key is non-empty exactly
when the network name is. -/
def storeConfigInv (p : Prefs) : Prop :=
  (Prefs.getString p "apikey" "" ≠ "") ↔ (Prefs.getString p "ssid" "" ≠ "")

instance (p : Prefs) : Decidable (storeConfigInv p) := by
  unfold storeConfigInv; infer_instance

/-- Follows the spec's words for one complete actuation pulse: both lines
configured as drive outputs, the fixed 3-second hold, then both lines
released to high-impedance input state. -/
def specActuationPulse : List Event :=
  [Event.pinMode relayPin PinIO.output,
   Event.pinMode relayPinMinus PinIO.output,
   Event.delayMs 3000,
   Event.pinMode relayPin PinIO.input,
   Event.pinMode relayPinMinus PinIO.input]

/-! ### Helper lemmas -/

lemma foldl_push_data (f : Nat → Char) :
    ∀ (l : List Nat) (a : String),
      (l.foldl (fun key i => key.push (f i)) a).data = a.data ++ l.map f := by
  intro l
  induction l with
  | nil => intro a; simp
  | cons x xs ih =>
    intro a
    rw [List.foldl_cons, ih]
    cases a with
    | mk d => simp [String.push]

lemma generateAPIKey_data (rng : Nat → Nat) :
    (generateAPIKey rng).data = (List.range 16).map (fun i => hexChar (rng i % 16)) := by
  unfold generateAPIKey
  rw [foldl_push_data]
  rfl

lemma hexChar_hex (r : Nat) : isHexUpper (hexChar (r % 16)) = true := by
  have hb : ∀ m : Nat, m < 16 → isHexUpper (hexChar m) = true := by decide
  exact hb _ (Nat.mod_lt _ (by decide))

lemma generateAPIKey_ne_empty (rng : Nat → Nat) : generateAPIKey rng ≠ "" := by
  intro h
  have hd := congrArg String.data h
  rw [generateAPIKey_data] at hd
  simp at hd

lemma checkAuth_iff (key : String) (req : Request) :
    checkAuth key req = true ↔
      List.lookup "Authorization" req.headers = some ("Bearer " ++ key) := by
  unfold checkAuth Request.hasHeader Request.header
  cases h : List.lookup "Authorization" req.headers with
  | none => simp [h]
  | some v => simp [h]

lemma getString_after_write (p : Prefs) (s pw k : String) :
    Prefs.getString (Prefs.putString
      (Prefs.putString (Prefs.putString p "ssid" s) "password" pw) "apikey" k) "ssid" "" = s ∧
    Prefs.getString (Prefs.putString
      (Prefs.putString (Prefs.putString p "ssid" s) "password" pw) "apikey" k) "password" "" = pw ∧
    Prefs.getString (Prefs.putString
      (Prefs.putString (Prefs.putString p "ssid" s) "password" pw) "apikey" k) "apikey" "" = k := by
  refine ⟨rfl, rfl, rfl⟩

/-! ### Claim theorems -/

/-- C6: every call to `generateAPIKey` returns a string of exactly 16
characters, each a decimal digit or an uppercase letter A through F, for
every state of the pseudo-random source. -/
theorem generateAPIKey_sixteen_hex (rng : Nat → Nat) :
    (generateAPIKey rng).length = 16 ∧
    (generateAPIKey rng).data.all isHexUpper = true := by
  have hd := generateAPIKey_data rng
  constructor
  · show (generateAPIKey rng).data.length = 16
    rw [hd]; simp
  · rw [hd]
    rw [List.all_eq_true]
    intro c hc
    rw [List.mem_map] at hc
    obtain ⟨i, _, rfl⟩ := hc
    exact hexChar_hex _

/-- C7: every actuation call performs exactly the sequence: both relay lines
configured as outputs, a 3000 ms hold, both lines back to input state; and
the sequence performed by an open request equals the one performed by a
close request. -/
theorem openOrCloseGate_pulse :
    openOrCloseGate = specActuationPulse ∧
    ∀ (key : String) (req : Request), (handleOpen key req).2 = (handleClose key req).2 := by
  refine ⟨rfl, ?_⟩
  intro key req
  unfold handleOpen handleClose
  cases h : checkAuth key req <;> simp [h]

/-- C8: a remote-notifier poll triggers the actuation sequence exactly when
the response status is 200, independently of the response body; any other
status only leaves a log entry recording the code. -/
theorem sendPostMessage_trigger (remote : String → Int × String) :
    ((sendPostMessage remote).events
        = if (remote getRequestData).1 = 200 then openOrCloseGate else []) ∧
    ((sendPostMessage remote).events ≠ [] ↔ (remote getRequestData).1 = 200) ∧
    ((sendPostMessage remote).log
        = if (remote getRequestData).1 = 200 then
            ["Response Code: " ++ toString (remote getRequestData).1,
             "Response: " ++ (remote getRequestData).2]
          else
            ["Error on sending POST: " ++ toString (remote getRequestData).1]) := by
  unfold sendPostMessage
  by_cases h : (remote getRequestData).1 = 200 <;>
    simp [h, openOrCloseGate]

lemma setup_reads (q : Prefs) :
    (setup q).savedSSID = Prefs.getString q "ssid" "" ∧
    (setup q).savedPassword = Prefs.getString q "password" "" ∧
    (setup q).savedAPIKey = Prefs.getString q "apikey" "" := by
  unfold setup
  by_cases h : (Prefs.getString q "ssid" "" == "" || Prefs.getString q "apikey" "" == "") = true <;>
    simp [h]

/-- C1: a GET to /open or /close whose Authorization header equals exactly
"Bearer " ++ the stored key yields 200 with the documented body and exactly
the one complete actuation trace; a missing or different header yields 401
with a WWW-Authenticate challenge and an empty actuation trace. -/
theorem open_close_bearer_auth (key : String) (req : Request) :
    (List.lookup "Authorization" req.headers = some ("Bearer " ++ key) →
      (handleOpen key req).1.code = 200 ∧
      (handleOpen key req).1.body = "\x7b\"status\": \"gate opened\"\x7d" ∧
      (handleOpen key req).2 = openOrCloseGate ∧
      (handleClose key req).1.code = 200 ∧
      (handleClose key req).1.body = "\x7b\"status\": \"gate closed\"\x7d" ∧
      (handleClose key req).2 = openOrCloseGate) ∧
    (List.lookup "Authorization" req.headers ≠ some ("Bearer " ++ key) →
      (handleOpen key req).1 = handleUnauthorized ∧
      (handleClose key req).1 = handleUnauthorized ∧
      handleUnauthorized.code = 401 ∧
      handleUnauthorized.headers = [("WWW-Authenticate", "Bearer")] ∧
      (handleOpen key req).2 = [] ∧
      (handleClose key req).2 = []) := by
  constructor
  · intro h
    have ha : checkAuth key req = true := (checkAuth_iff key req).mpr h
    simp [handleOpen, handleClose, ha]
  · intro h
    have ha : checkAuth key req = false := by
      cases hc : checkAuth key req with
      | false => rfl
      | true => exact absurd ((checkAuth_iff key req).mp hc) h
    simp [handleOpen, handleClose, ha, handleUnauthorized]

/-- A request carrying the correct bearer header for the key "KEY1". -/
def reqAuthGood : Request := { headers := [("Authorization", "Bearer KEY1")] }

/-- A request with no headers at all. -/
def reqAuthBad : Request := { headers := [] }

theorem open_close_bearer_auth_witness :
    ((handleOpen "KEY1" reqAuthGood).1.code = 200 ∧
     (handleOpen "KEY1" reqAuthGood).1.body = "\x7b\"status\": \"gate opened\"\x7d" ∧
     (handleOpen "KEY1" reqAuthGood).2 = openOrCloseGate ∧
     (handleClose "KEY1" reqAuthGood).1.code = 200 ∧
     (handleClose "KEY1" reqAuthGood).1.body = "\x7b\"status\": \"gate closed\"\x7d" ∧
     (handleClose "KEY1" reqAuthGood).2 = openOrCloseGate) ∧
    ((handleOpen "KEY1" reqAuthBad).1 = handleUnauthorized ∧
     (handleClose "KEY1" reqAuthBad).1 = handleUnauthorized ∧
     handleUnauthorized.code = 401 ∧
     handleUnauthorized.headers = [("WWW-Authenticate", "Bearer")] ∧
     (handleOpen "KEY1" reqAuthBad).2 = [] ∧
     (handleClose "KEY1" reqAuthBad).2 = []) :=
  ⟨(open_close_bearer_auth "KEY1" reqAuthGood).1 rfl,
   (open_close_bearer_auth "KEY1" reqAuthBad).2 (by simp [reqAuthBad])⟩

/-- C2: with an empty stored SSID or an empty stored API key, boot enters
provisioning mode (access point up, setup routes registered, never the
operational surface); with both non-empty, boot joins the stored network in
station mode and never opens the access point. -/
theorem boot_mode_selection (p : Prefs) :
    ((Prefs.getString p "ssid" "" = "" ∨ Prefs.getString p "apikey" "" = "") →
      (setup p).mode = BootMode.provisioning ∧
      (setup p).apStarted = true ∧
      (setup p).setupRoutesRegistered = true ∧
      (setup p).normalRoutesRegistered = false ∧
      (setup p).joinTarget = none) ∧
    (Prefs.getString p "ssid" "" ≠ "" → Prefs.getString p "apikey" "" ≠ "" →
      (setup p).mode = BootMode.operational ∧
      (setup p).apStarted = false ∧
      (setup p).setupRoutesRegistered = false ∧
      (setup p).normalRoutesRegistered = true ∧
      (setup p).joinTarget
        = some (Prefs.getString p "ssid" "", Prefs.getString p "password" "")) := by
  constructor
  · intro h
    have hb : (Prefs.getString p "ssid" "" == "" || Prefs.getString p "apikey" "" == "") = true := by
      rcases h with h | h <;> simp [h]
    simp [setup, hb]
  · intro hs hk
    have hb : (Prefs.getString p "ssid" "" == "" || Prefs.getString p "apikey" "" == "") = false := by
      simp [hs, hk]
    simp [setup, hb]

/-- A fully provisioned store. -/
def pFull : Prefs := [("ssid", "net"), ("password", "pw"), ("apikey", "K")]

theorem boot_mode_selection_witness :
    ((setup Prefs.empty).mode = BootMode.provisioning ∧
     (setup Prefs.empty).apStarted = true ∧
     (setup Prefs.empty).setupRoutesRegistered = true ∧
     (setup Prefs.empty).normalRoutesRegistered = false ∧
     (setup Prefs.empty).joinTarget = none) ∧
    ((setup pFull).mode = BootMode.operational ∧
     (setup pFull).apStarted = false ∧
     (setup pFull).setupRoutesRegistered = false ∧
     (setup pFull).normalRoutesRegistered = true ∧
     (setup pFull).joinTarget
       = some (Prefs.getString pFull "ssid" "", Prefs.getString pFull "password" "")) :=
  ⟨(boot_mode_selection Prefs.empty).1 (Or.inl rfl),
   (boot_mode_selection pFull).2 (by decide) (by decide)⟩

/-- C3: a /config POST against a store whose three credential entries are all
non-empty returns 403 and leaves the store completely unchanged. -/
theorem config_conflict_when_provisioned (p : Prefs) (rng : Nat → Nat) (req : SetupRequest)
    (hs : Prefs.getString p "ssid" "" ≠ "")
    (_hpw : Prefs.getString p "password" "" ≠ "")
    (_hk : Prefs.getString p "apikey" "" ≠ "") :
    (handleConfigPost p rng req).reply.code = 403 ∧
    (handleConfigPost p rng req).prefs = p ∧
    (handleConfigPost p rng req).restart = false := by
  have hb : (Prefs.getString p "ssid" "" != "") = true := by simp [hs]
  simp [handleConfigPost, hb]

/-- The pseudo-random stream that always reads zero. -/
def rngZero : Nat → Nat := fun _ => 0

/-- A setup-portal request with no arguments and an empty body. -/
def reqNone : SetupRequest := { args := [], plain := "" }

theorem config_conflict_when_provisioned_witness :
    Prefs.getString pFull "ssid" "" ≠ "" ∧
    (handleConfigPost pFull rngZero reqNone).reply.code = 403 ∧
    (handleConfigPost pFull rngZero reqNone).prefs = pFull ∧
    (handleConfigPost pFull rngZero reqNone).restart = false :=
  ⟨by decide,
   config_conflict_when_provisioned pFull rngZero reqNone (by decide) (by decide) (by decide)⟩

/-- C9: any provisioning request that answers 200 (via /config or /save)
persists exactly the submitted network name, the submitted secret and the
freshly generated key, and `setup` at the next boot reads back exactly that
triple. -/
theorem provisioning_round_trip (p : Prefs) (rng : Nat → Nat) (req : SetupRequest) :
    ((handleConfigPost p rng req).reply.code = 200 →
      (setup (handleConfigPost p rng req).prefs).savedSSID = (configCredentials req).1 ∧
      (setup (handleConfigPost p rng req).prefs).savedPassword = (configCredentials req).2 ∧
      (setup (handleConfigPost p rng req).prefs).savedAPIKey = generateAPIKey rng) ∧
    ((handleSetupSave p rng req).reply.code = 200 →
      (setup (handleSetupSave p rng req).prefs).savedSSID = SetupRequest.arg req "ssid" ∧
      (setup (handleSetupSave p rng req).prefs).savedPassword = SetupRequest.arg req "password" ∧
      (setup (handleSetupSave p rng req).prefs).savedAPIKey = generateAPIKey rng) := by
  constructor
  · intro h200
    by_cases hc : (Prefs.getString p "ssid" "" != "") = true
    · exfalso
      simp [handleConfigPost, hc] at h200
    · by_cases he : ((configCredentials req).1 == "" || (configCredentials req).2 == "") = true
      · exfalso
        simp only [Bool.not_eq_true] at hc
        simp [handleConfigPost, hc, he] at h200
      · simp only [Bool.not_eq_true] at hc
        have hp : (handleConfigPost p rng req).prefs
            = Prefs.putString (Prefs.putString
                (Prefs.putString p "ssid" (configCredentials req).1)
                "password" (configCredentials req).2)
                "apikey" (generateAPIKey rng) := by
          simp [handleConfigPost, hc, he]
        rw [hp]
        obtain ⟨h1, h2, h3⟩ := setup_reads (Prefs.putString (Prefs.putString
          (Prefs.putString p "ssid" (configCredentials req).1)
          "password" (configCredentials req).2) "apikey" (generateAPIKey rng))
        rw [h1, h2, h3]
        exact getString_after_write p _ _ _
  · intro h200
    by_cases ha : (req.hasArg "ssid" && req.hasArg "password") = true
    · have hp : (handleSetupSave p rng req).prefs
          = Prefs.putString (Prefs.putString
              (Prefs.putString p "ssid" (SetupRequest.arg req "ssid"))
              "password" (SetupRequest.arg req "password"))
              "apikey" (generateAPIKey rng) := by
        simp [handleSetupSave, ha]
      rw [hp]
      obtain ⟨h1, h2, h3⟩ := setup_reads (Prefs.putString (Prefs.putString
        (Prefs.putString p "ssid" (SetupRequest.arg req "ssid"))
        "password" (SetupRequest.arg req "password")) "apikey" (generateAPIKey rng))
      rw [h1, h2, h3]
      exact getString_after_write p _ _ _
    · exfalso
      simp [handleSetupSave, ha] at h200

/-- A setup-portal request submitting both form arguments. -/
def reqBothArgs : SetupRequest := { args := [("ssid", "net"), ("password", "pw")], plain := "" }

theorem provisioning_round_trip_witness :
    ((setup (handleConfigPost Prefs.empty rngZero reqBothArgs).prefs).savedSSID
        = (configCredentials reqBothArgs).1 ∧
     (setup (handleConfigPost Prefs.empty rngZero reqBothArgs).prefs).savedPassword
        = (configCredentials reqBothArgs).2 ∧
     (setup (handleConfigPost Prefs.empty rngZero reqBothArgs).prefs).savedAPIKey
        = generateAPIKey rngZero) ∧
    ((setup (handleSetupSave Prefs.empty rngZero reqBothArgs).prefs).savedSSID
        = SetupRequest.arg reqBothArgs "ssid" ∧
     (setup (handleSetupSave Prefs.empty rngZero reqBothArgs).prefs).savedPassword
        = SetupRequest.arg reqBothArgs "password" ∧
     (setup (handleSetupSave Prefs.empty rngZero reqBothArgs).prefs).savedAPIKey
        = generateAPIKey rngZero) :=
  ⟨(provisioning_round_trip Prefs.empty rngZero reqBothArgs).1 (by decide),
   (provisioning_round_trip Prefs.empty rngZero reqBothArgs).2 (by decide)⟩

/-- C10: in a store whose SSID is non-empty while the API key is empty, boot
enters provisioning mode, yet every /config POST answers 403 and leaves the
store unchanged (the conflict check reads only the SSID), while a /save POST
carrying both arguments overwrites the stored credentials with no conflict
check at all. -/
theorem config_conflict_reads_only_ssid (p : Prefs) (rng : Nat → Nat) (req req2 : SetupRequest)
    (hs : Prefs.getString p "ssid" "" ≠ "")
    (hk : Prefs.getString p "apikey" "" = "") :
    (setup p).mode = BootMode.provisioning ∧
    (handleConfigPost p rng req).reply.code = 403 ∧
    (handleConfigPost p rng req).prefs = p ∧
    (req2.hasArg "ssid" = true → req2.hasArg "password" = true →
      (handleSetupSave p rng req2).reply.code = 200 ∧
      Prefs.getString (handleSetupSave p rng req2).prefs "ssid" ""
        = SetupRequest.arg req2 "ssid" ∧
      Prefs.getString (handleSetupSave p rng req2).prefs "password" ""
        = SetupRequest.arg req2 "password" ∧
      Prefs.getString (handleSetupSave p rng req2).prefs "apikey" ""
        = generateAPIKey rng) := by
  have hb : (Prefs.getString p "ssid" "" != "") = true := by simp [hs]
  refine ⟨?_, ?_, ?_, ?_⟩
  · simp [setup, hk]
  · simp [handleConfigPost, hb]
  · simp [handleConfigPost, hb]
  · intro h1 h2
    have ha : (req2.hasArg "ssid" && req2.hasArg "password") = true := by
      simp [h1, h2]
    have hp : (handleSetupSave p rng req2).prefs
        = Prefs.putString (Prefs.putString
            (Prefs.putString p "ssid" (SetupRequest.arg req2 "ssid"))
            "password" (SetupRequest.arg req2 "password"))
            "apikey" (generateAPIKey rng) := by
      simp [handleSetupSave, ha]
    refine ⟨by simp [handleSetupSave, ha], ?_⟩
    rw [hp]
    exact getString_after_write p _ _ _

/-- A store holding only an SSID: an artefact state the /save handler can
produce, in which the API key entry is still empty. -/
def pSSIDOnly : Prefs := [("ssid", "net")]

theorem config_conflict_reads_only_ssid_witness :
    (setup pSSIDOnly).mode = BootMode.provisioning ∧
    (handleConfigPost pSSIDOnly rngZero reqNone).reply.code = 403 ∧
    (handleConfigPost pSSIDOnly rngZero reqNone).prefs = pSSIDOnly ∧
    ((handleSetupSave pSSIDOnly rngZero reqBothArgs).reply.code = 200 ∧
     Prefs.getString (handleSetupSave pSSIDOnly rngZero reqBothArgs).prefs "ssid" ""
       = SetupRequest.arg reqBothArgs "ssid" ∧
     Prefs.getString (handleSetupSave pSSIDOnly rngZero reqBothArgs).prefs "password" ""
       = SetupRequest.arg reqBothArgs "password" ∧
     Prefs.getString (handleSetupSave pSSIDOnly rngZero reqBothArgs).prefs "apikey" ""
       = generateAPIKey rngZero) := by
  obtain ⟨h1, h2, h3, h4⟩ :=
    config_conflict_reads_only_ssid pSSIDOnly rngZero reqNone reqBothArgs
      (by decide) (by decide)
  exact ⟨h1, h2, h3, h4 (by decide) (by decide)⟩

/-- A /config request whose raw body lists the two keys in reversed order:
not an instance of the ssid-then-password shape the minimal scan supports.
The scan extracts the garbage pair ("y\x7d", "x, ssid: y"). -/
def reqReordered : SetupRequest :=
  { args := [], plain := "\x7b\"password\": \"x\", \"ssid\": \"y\"\x7d" }

/-- C4 counterexample: this malformed body is answered with 200, not 400, and
the garbage extraction is written to the store ("y\x7d" as the SSID), so the
claim "400 and nothing written for every body outside the two-key schema" is
false at this input. -/
theorem config_malformed_body_written :
    (handleConfigPost Prefs.empty rngZero reqReordered).reply.code = 200 ∧
    Prefs.getString (handleConfigPost Prefs.empty rngZero reqReordered).prefs "ssid" ""
      = "y\x7d" ∧
    Prefs.getString (handleConfigPost Prefs.empty rngZero reqReordered).prefs "password" ""
      = "x, ssid: y" ∧
    (handleConfigPost Prefs.empty rngZero reqReordered).prefs ≠ Prefs.empty := by
  refine ⟨by decide, by decide, by decide, by decide⟩

/-- A /config request whose body carries only the ssid key; the scan leaves
both extracted fields empty. -/
def reqOneKey : SetupRequest := { args := [], plain := "\x7b\"ssid\": \"net\"\x7d" }

/-- C4 (amended): whenever the extraction phase yields an empty ssid or an
empty password — in particular for a body missing a key or carrying only one
of the two — the /config handler returns 400 and writes nothing; bodies whose
scan yields non-empty garbage for both fields are, however, written in full. -/
theorem config_empty_extraction_rejected (p : Prefs) (rng : Nat → Nat) (req : SetupRequest)
    (hfree : Prefs.getString p "ssid" "" = "")
    (hempty : (configCredentials req).1 = "" ∨ (configCredentials req).2 = "") :
    (handleConfigPost p rng req).reply.code = 400 ∧
    (handleConfigPost p rng req).prefs = p ∧
    (handleConfigPost p rng req).restart = false := by
  have hb : (Prefs.getString p "ssid" "" != "") = false := by simp [hfree]
  have he : ((configCredentials req).1 == "" || (configCredentials req).2 == "") = true := by
    rcases hempty with h | h <;> simp [h]
  simp [handleConfigPost, hb, he]

theorem config_empty_extraction_rejected_witness :
    Prefs.getString Prefs.empty "ssid" "" = "" ∧
    (configCredentials reqOneKey).1 = "" ∧
    (handleConfigPost Prefs.empty rngZero reqOneKey).reply.code = 400 ∧
    (handleConfigPost Prefs.empty rngZero reqOneKey).prefs = Prefs.empty ∧
    (handleConfigPost Prefs.empty rngZero reqOneKey).restart = false :=
  ⟨rfl, by decide,
   config_empty_extraction_rejected Prefs.empty rngZero reqOneKey rfl (Or.inl (by decide))⟩

/-- A /save form submission whose ssid field is present but empty. -/
def reqEmptySSID : SetupRequest :=
  { args := [("ssid", ""), ("password", "pw")], plain := "" }

/-- C5 counterexample: the empty store satisfies the store-shape invariant,
yet one /save request whose ssid field is present-but-empty produces a store
with an empty SSID and a non-empty API key, so "after every operation the
store is either empty or fully configured" is false at this input. -/
theorem save_empty_ssid_breaks_invariant :
    storeConfigInv Prefs.empty ∧
    ¬ storeConfigInv (handleSetupSave Prefs.empty rngZero reqEmptySSID).prefs ∧
    (handleSetupSave Prefs.empty rngZero reqEmptySSID).reply.code = 200 := by
  refine ⟨by decide, by decide, by decide⟩

/-- C5 (amended): every operation except a /save whose submitted ssid value
is empty preserves the store-shape invariant: any /config request preserves
it, and a /save request preserves it provided a present ssid argument is
non-empty. -/
theorem store_invariant_preserved (p : Prefs) (rng : Nat → Nat) (req : SetupRequest)
    (hinv : storeConfigInv p)
    (hssid : req.hasArg "ssid" = true → SetupRequest.arg req "ssid" ≠ "") :
    storeConfigInv (handleConfigPost p rng req).prefs ∧
    storeConfigInv (handleSetupSave p rng req).prefs := by
  constructor
  · by_cases hc : (Prefs.getString p "ssid" "" != "") = true
    · have hp : (handleConfigPost p rng req).prefs = p := by
        simp [handleConfigPost, hc]
      rw [hp]; exact hinv
    · simp only [Bool.not_eq_true] at hc
      by_cases he : ((configCredentials req).1 == "" || (configCredentials req).2 == "") = true
      · have hp : (handleConfigPost p rng req).prefs = p := by
          simp [handleConfigPost, hc, he]
        rw [hp]; exact hinv
      · have hp : (handleConfigPost p rng req).prefs
            = Prefs.putString (Prefs.putString
                (Prefs.putString p "ssid" (configCredentials req).1)
                "password" (configCredentials req).2)
                "apikey" (generateAPIKey rng) := by
          simp [handleConfigPost, hc, he]
        rw [hp]
        obtain ⟨h1, _, h3⟩ := getString_after_write p (configCredentials req).1
          (configCredentials req).2 (generateAPIKey rng)
        unfold storeConfigInv
        rw [h1, h3]
        have hne : (configCredentials req).1 ≠ "" := by
          simp only [Bool.or_eq_true, beq_iff_eq] at he
          push_neg at he
          exact he.1
        simp [generateAPIKey_ne_empty rng, hne]
  · by_cases ha : (req.hasArg "ssid" && req.hasArg "password") = true
    · have hp : (handleSetupSave p rng req).prefs
          = Prefs.putString (Prefs.putString
              (Prefs.putString p "ssid" (SetupRequest.arg req "ssid"))
              "password" (SetupRequest.arg req "password"))
              "apikey" (generateAPIKey rng) := by
        simp [handleSetupSave, ha]
      rw [hp]
      obtain ⟨h1, _, h3⟩ := getString_after_write p (SetupRequest.arg req "ssid")
        (SetupRequest.arg req "password") (generateAPIKey rng)
      unfold storeConfigInv
      rw [h1, h3]
      have hne : SetupRequest.arg req "ssid" ≠ "" := by
        simp only [Bool.and_eq_true] at ha
        exact hssid ha.1
      simp [generateAPIKey_ne_empty rng, hne]
    · have hp : (handleSetupSave p rng req).prefs = p := by
        simp [handleSetupSave, ha]
      rw [hp]; exact hinv

theorem store_invariant_preserved_witness :
    storeConfigInv Prefs.empty ∧
    storeConfigInv (handleConfigPost Prefs.empty rngZero reqBothArgs).prefs ∧
    storeConfigInv (handleSetupSave Prefs.empty rngZero reqBothArgs).prefs :=
  ⟨by decide,
   store_invariant_preserved Prefs.empty rngZero reqBothArgs (by decide)
     (fun _ => by decide)⟩

end Gate
